import Mathlib

/-!
Verification of the pyp templating transpiler (src/pyp.py).

The source is a Python 2 program that translates a template document
(literal text, `$\x7b...\x7d` embedded expressions, `%`-directives) into a
Python script, runs it, and maps failures back to original source lines.

This development shallowly embeds the core pipeline:
  * `preprocess_text`          (PYPParser.preprocess_text)
  * `pyp_textlines`            (PYPParser.__init__, numbered line list)
  * `parse_lines`              (PythonSequence.parse_lines and
                                PythonSequence._process_python_block,
                                written as one structurally recursive loop
                                over the line stream with an explicit stack
                                of open sequences and an explicit
                                "inside `<%` block" mode; each branch is
                                annotated with the source lines it mirrors)
  * `line_to_pythonstatement`  (PythonSequence.line_to_pythonstatement)
  * `get_lines_from_nodes`     (code generation, PythonSequence.get_lines /
                                get_lines_from_nodes / PythonIndentedSequence.get_lines)
  * `get_pyp_errorline`, the error reports, and the temp-file output
    protocol of PYPParser.write_and_execute_python_file.

Strings are modelled as `List Char` (`Str`), so that every operation is a
plain computable function on lists and concrete runs reduce in the kernel.
Functions that in Python scan forward past a variable-length match are
written with an explicit fuel argument (always called with fuel at least
the string length, which a comment justifies at each definition); all
stated properties hold for every fuel value, so no sufficiency proof is
needed for the theorems, and concrete evaluations compute the very value
the Python code computes.
-/

/-- Strings of the embedded program: plain lists of characters. -/
abbrev Str := List Char

/-- Python's `\s` character class (whitespace as matched by the `re` module
for the default ASCII patterns in the source: space, tab, newline, carriage
return, vertical tab, form feed). -/
def isPySpace (c : Char) : Bool :=
  c = ' ' || c = '\t' || c = '\n' || c = '\r' || c = '\x0b' || c = '\x0c'

/-- Number of newline characters in a string. -/
def countNl (s : Str) : Nat := s.countP (fun c => c = '\n')

/-- Python's `text.split("\n")`: split at every newline; always returns one
more piece than there are newlines. -/
def splitNl : Str → List Str
  | [] => [[]]
  | c :: cs =>
    if c = '\n' then [] :: splitNl cs
    else
      match splitNl cs with
      | [] => [[c]]
      | h :: t => (c :: h) :: t


/-- `"\n".join(pieces)`. -/
def joinNl : List Str → Str
  | [] => []
  | [x] => x
  | x :: y :: t => x ++ '\n' :: joinNl (y :: t)

/-- `"".join(pieces)`. -/
def strJoin : List Str → Str
  | [] => []
  | x :: t => x ++ strJoin t

/-- First occurrence of `pat`: `some (before, after)` splits `s` as
`before ++ pat ++ after` at the leftmost occurrence, `none` if `pat` does
not occur.  This is the one string-search primitive under all the
regex-shaped matchers below. -/
def splitAtPat (pat : Str) : Str → Option (Str × Str)
  | [] => if pat = [] then some ([], []) else none
  | c :: cs =>
    if pat.isPrefixOf (c :: cs) then some ([], (c :: cs).drop pat.length)
    else (splitAtPat pat cs).map (fun p => (c :: p.1, p.2))


/-- Python `s.replace(pat, "")`: delete every (non-overlapping,
left-to-right) occurrence of `pat`.  Fueled scan; each step consumes at
least one character, so fuel `s.length` reproduces `str.replace` exactly. -/
def removeSubGo (pat : Str) : Nat → Str → Str
  | _, [] => []
  | 0, s => s
  | Nat.succ f, c :: cs =>
    if pat ≠ [] ∧ pat.isPrefixOf (c :: cs) = true then
      removeSubGo pat f ((c :: cs).drop pat.length)
    else
      c :: removeSubGo pat f cs

def removeSub (pat s : Str) : Str := removeSubGo pat s.length s

/-- Python `s.replace(pat, rep, 1)`: replace only the first occurrence. -/
def replaceFirst (pat rep : Str) (s : Str) : Str :=
  match splitAtPat pat s with
  | none => s
  | some (a, b) => a ++ rep ++ b

/-- The character-wise substitution underlying `escape_quotes` and
`escape_percent`: every occurrence of the single character `c` becomes
`rep` (this is `str.replace` for a one-character pattern). -/
def replaceChar (c : Char) (rep : Str) : Str → Str
  | [] => []
  | d :: ds => (if d = c then rep else [d]) ++ replaceChar c rep ds

/-- `escape_quotes` (src/pyp.py line 23): `\` to `\\`, then `'` to `\'`,
then `"` to `\"`, as three chained `str.replace` calls. -/
def escape_quotes (s : Str) : Str :=
  replaceChar '"' ['\\', '"'] (replaceChar '\'' ['\\', '\''] (replaceChar '\\' ['\\', '\\'] s))

/-- `escape_percent` (src/pyp.py line 26): `%` to `%%`. -/
def escape_percent (s : Str) : Str := replaceChar '%' ['%', '%'] s

/-- Decimal rendering of a line number, as `"%d" % n` produces. -/
def natStr (n : Nat) : Str := (Nat.repr n).toList


/-! ## The embedded-expression marker `$\x7b...\x7d` -/

def exprOpen : Str := "$\x7b".toList
def exprClose : Str := "\x7d".toList

/-- `EXPR_REGEX.findall(line)` for `\$\x7b(?P<inner>.*?)\x7d` with DOTALL
(src/pyp.py line 75): each match opens at the leftmost remaining `$\x7b`
and, the inner group being non-greedy, closes at the first `\x7d` after
it; the captured group is the text between.  Fuel `s.length` suffices:
each match consumes at least three characters. -/
def exprFindallGo : Nat → Str → List Str
  | 0, _ => []
  | Nat.succ f, s =>
    match splitAtPat exprOpen s with
    | none => []
    | some (_, rest) =>
      match splitAtPat exprClose rest with
      | none => []
      | some (inner, post) => inner :: exprFindallGo f post

def exprFindall (s : Str) : List Str := exprFindallGo s.length s

/-- `EXPR_REGEX.sub("%s", print_string)` (src/pyp.py line 367): every
match is replaced by the two characters `%s`. -/
def exprSubGo : Nat → Str → Str
  | 0, s => s
  | Nat.succ f, s =>
    match splitAtPat exprOpen s with
    | none => s
    | some (pre, rest) =>
      match splitAtPat exprClose rest with
      | none => s
      | some (_, post) => pre ++ '%' :: 's' :: exprSubGo f post

def exprSubPercentS (s : Str) : Str := exprSubGo s.length s

/-- The placeholder token (src/pyp.py line 116). -/
def DUMMYTEXT : Str := "DUMMYTEXT".toList

/-- `"\n%s" % DUMMYTEXT` (src/pyp.py line 447). -/
def dummyline : Str := '\n' :: DUMMYTEXT

/-- `dummyline * n`: Python string repetition. -/
def dummyPad : Nat → Str
  | 0 => []
  | Nat.succ n => dummyline ++ dummyPad n

/-- `innertext.replace("\n", " ")`. -/
def mapNlSpace (s : Str) : Str := s.map (fun c => if c = '\n' then ' ' else c)

/-- `PYPParser.preprocess_text` (src/pyp.py lines 445-457):
`EXPR_REGEX.sub(replace_func, text)` where `replace_func` collapses the
match's inner newlines to spaces and appends one `"\nDUMMYTEXT"` per
removed newline.  Fuel `t.length` suffices: each match consumes at least
three characters of the original text. -/
def preSubGo : Nat → Str → Str
  | 0, s => s
  | Nat.succ f, s =>
    match splitAtPat exprOpen s with
    | none => s
    | some (pre, rest) =>
      match splitAtPat exprClose rest with
      | none => s
      | some (inner, post) =>
        pre ++ exprOpen ++ mapNlSpace inner ++ exprClose ++
          dummyPad (countNl inner) ++ preSubGo f post

def preprocess_text (t : Str) : Str := preSubGo t.length t

/-- Numbered line stream built in `PYPParser.__init__` (src/pyp.py
lines 434-440): the preprocessed text is split on newlines and zipped
with the line numbers `1, 2, ...`. -/
def pyp_textlines (text : Str) : List (Str × Nat) :=
  (splitNl (preprocess_text text)).zip
    (List.range' 1 (splitNl (preprocess_text text)).length)


def PRINT_FUNC : Str := "_PRINT".toList
def OUTPUT_APPEND : Str := "_OUTPUT.append".toList

/-- The per-expression cleanup inside `line_to_pythonstatement`
(src/pyp.py line 374): `expr.replace("$\x7b","").replace("\x7d","")`. -/
def cleanExpr (e : Str) : Str := removeSub exprClose (removeSub exprOpen e)

/-- The `exprs_cleaned` accumulation loop (src/pyp.py lines 372-375). -/
def exprs_cleaned (exprs : List Str) : List Str := exprs.map cleanExpr

/-- `"(%s)" % expr`. -/
def parenWrap (e : Str) : Str := '(' :: (e ++ [')'])

/-- `",".join(pieces)`. -/
def commaJoin : List Str → Str
  | [] => []
  | [x] => x
  | x :: y :: t => x ++ ',' :: commaJoin (y :: t)

/-- `PythonSequence.line_to_pythonstatement` (src/pyp.py lines 357-385).
`pypdef` is the sequence's accumulator flag `self.pypdef`. -/
def line_to_pythonstatement (pypdef : Bool) (line : Str) : Str :=
  let exprs := exprFindall line
  let print_func := if pypdef then OUTPUT_APPEND else PRINT_FUNC
  let parens_statement :=
    if exprs ≠ [] then
      let print_string := escape_quotes (exprSubPercentS (escape_percent line))
      '\'' :: (print_string ++ '\'' :: " % (".toList) ++
        commaJoin ((exprs_cleaned exprs).map parenWrap) ++ ",)".toList
    else
      "('".toList ++ escape_quotes line ++ "')".toList
  print_func ++ '(' :: (parens_statement ++ [')'])


/-! ## Line classification (the regexes of src/pyp.py lines 99-118) -/

/-- `\s*` at the start: Python regexes below all begin with `\s*`. -/
def dropSpaces (s : Str) : Str := s.dropWhile isPySpace

/-- `PYP_COMMENT_REGEX = \s*##`, used with `.match` (anchored at the
start). -/
def matchPypComment (line : Str) : Bool := "##".toList.isPrefixOf (dropSpaces line)

/-- `DUMMYTEXT_REGEX = DUMMYTEXT\s*$`, used with `.match`: the line starts
with `DUMMYTEXT` and only whitespace follows. -/
def matchDummytextLine (line : Str) : Bool :=
  DUMMYTEXT.isPrefixOf line && (line.drop DUMMYTEXT.length).all isPySpace

/-- `PYTHON_BLOCK_START_REGEX = \s*<%`. -/
def matchPythonBlockStart (line : Str) : Bool := "<%".toList.isPrefixOf (dropSpaces line)

/-- `PYTHON_BLOCK_END_REGEX = \s*%>`. -/
def matchPythonBlockEnd (line : Str) : Bool := "%>".toList.isPrefixOf (dropSpaces line)

/-- The common `\s*%\s*` prefix of the control-line regexes: `some rest`
when the line is whitespace, `%`, whitespace, then `rest` (which is where
group 1 of those regexes starts). -/
def percentRest (line : Str) : Option Str :=
  match dropSpaces line with
  | '%' :: t => some (dropSpaces t)
  | _ => none

/-- The start-keyword family, `CONTROL_TAGS.keys()` (src/pyp.py lines
77-90).  The regex alternation order is immaterial because no keyword is a
prefix of another. -/
def python_startblock_keywords : List Str :=
  ["for".toList, "if".toList, "try".toList, "while".toList,
   "def".toList, "pypdef".toList, "class".toList, "with".toList]

/-- `MIDDLE2START_MAP` (src/pyp.py lines 88-96). -/
def MIDDLE2START_MAP : List (Str × Str) :=
  [("elif".toList, "if".toList), ("else".toList, "if".toList),
   ("except".toList, "try".toList), ("finally".toList, "try".toList)]

def middle_keywords : List Str := MIDDLE2START_MAP.map Prod.fst

/-- Dictionary lookup `MIDDLE2START_MAP[w]`; the parser only consults it
for words produced by the middle-keyword alternation, which are exactly
the map's keys, so the default is never reached. -/
def middle2start (w : Str) : Str :=
  ((MIDDLE2START_MAP.find? (fun e => e.1 == w)).map Prod.snd).getD []

/-- First keyword of `kws` that is a prefix of `s`, with the remainder:
the regex alternation `(k1|k2|...)` applied at the current position. -/
def keywordSplit (kws : List Str) (s : Str) : Option (Str × Str) :=
  match kws with
  | [] => none
  | k :: t => if k.isPrefixOf s then some (k, s.drop k.length) else keywordSplit t s

/-- Greedy `.*:` — `some p` where `p` is everything up to and including
the last `:` of `s`; `none` when `s` has no colon. -/
def lastColonTake (s : Str) : Option Str :=
  match s.reverse.findIdx? (fun c => c = ':') with
  | none => none
  | some i => some (s.take (s.length - i))

/-- `CONTROL_START_REGEX = \s*%\s*((for|if|...).*:)` via `.match`:
returns `some (group1, group2)` = (full statement through the last colon,
keyword). -/
def matchControlStart (line : Str) : Option (Str × Str) :=
  (percentRest line).bind fun r =>
    (keywordSplit python_startblock_keywords r).bind fun kw =>
      (lastColonTake kw.2).map fun taken => (kw.1 ++ taken, kw.1)

/-- `CONTROL_MIDDLE_REGEX = \s*%\s*((elif|else|except|finally).*:)`. -/
def matchControlMiddle (line : Str) : Option (Str × Str) :=
  (percentRest line).bind fun r =>
    (keywordSplit middle_keywords r).bind fun kw =>
      (lastColonTake kw.2).map fun taken => (kw.1 ++ taken, kw.1)

/-- `CONTROL_END_REGEX = \s*%\s*end(for|if|...)`: returns the keyword. -/
def matchControlEnd (line : Str) : Option Str :=
  (percentRest line).bind fun r =>
    if "end".toList.isPrefixOf r then
      (keywordSplit python_startblock_keywords (r.drop 3)).map Prod.fst
    else none

/-- `SPACE_COMMENT_REGEX = (\s*$)|(\s*#)` (src/pyp.py line 153): blank
line or `#` comment line. -/
def matchSpaceOrComment (line : Str) : Bool :=
  line.all isPySpace || "#".toList.isPrefixOf (dropSpaces line)

/-- `len(SPACE_REGEX.match(line).group(0))` (src/pyp.py lines 152, 181):
width of the leading whitespace run. -/
def leadingSpaces (line : Str) : Nat := (line.takeWhile isPySpace).length

/-- Count of `"""` or `'''` occurrences,
`len(re.findall(r"\"\"\"|\'\'\'", line))` (src/pyp.py line 167):
non-overlapping, left to right. -/
def countTriplesGo : Nat → Str → Nat
  | 0, _ => 0
  | _, [] => 0
  | Nat.succ f, c :: cs =>
    if "\"\"\"".toList.isPrefixOf (c :: cs) || "'''".toList.isPrefixOf (c :: cs) then
      1 + countTriplesGo f ((c :: cs).drop 3)
    else countTriplesGo f cs

def countTriples (s : Str) : Nat := countTriplesGo s.length s


/-! ## The parsed tree -/

mutual
inductive PNode where
  | pline (string : Str) (noindent : Bool)
  | pseq (blocks : PBlocks)
inductive PBlocks where
  | nil
  | cons (control_statement : Str) (nodes : PNodes) (rest : PBlocks)
inductive PNodes where
  | nil
  | cons (n : PNode) (rest : PNodes)
end

def PNodes.append : PNodes → PNodes → PNodes
  | .nil, ms => ms
  | .cons n t, ms => .cons n (t.append ms)

def PNodes.push (ns : PNodes) (n : PNode) : PNodes := ns.append (.cons n .nil)

def PBlocks.push : PBlocks → Str → PNodes → PBlocks
  | .nil, h, ns => .cons h ns .nil
  | .cons h0 ns0 t, h, ns => .cons h0 ns0 (t.push h ns)

/-- The mutable state of one `PythonSequence` during `parse_lines`
(src/pyp.py lines 120-145 and 388-406), made explicit.
`done_blocks`/`curr_header`/`curr_nodes` spell out `control_blocks`
together with the `curr_node_list` insertion pointer: the block being
filled is always the last one, so it is kept apart as
`(curr_header, curr_nodes)`.  For the root sequence
(`control_word = none`) there are no blocks and `curr_nodes` is its plain
`nodes` list.  `control_linenum` is 0 for the root, which never reads it
(the source never sets that attribute on the root either). -/
structure SeqState where
  control_word : Option Str
  control_statement : Str
  control_linenum : Nat
  pypdef : Bool
  python_linenum : Nat
  python_line_map : List (Nat × Nat)
  done_blocks : PBlocks
  curr_header : Str
  curr_nodes : PNodes

/-- `add_node` with a `linenum` (src/pyp.py lines 135-141): append the
node to the current node list, record
`python_line_map[python_linenum] = linenum`, advance `python_linenum`.
The map is an association list with the newest binding first, so `find?`
realizes dictionary lookup. -/
def SeqState.add_node_mapped (st : SeqState) (s : Str) (noindent : Bool)
    (linenum : Nat) : SeqState :=
  { st with curr_nodes := st.curr_nodes.push (.pline s noindent),
            python_line_map := (st.python_linenum, linenum) :: st.python_line_map,
            python_linenum := st.python_linenum + 1 }

/-- `add_node` with `linenum=None` (src/pyp.py lines 135-141): no map
entry, but `python_linenum` still advances. -/
def SeqState.add_node_unmapped (st : SeqState) (s : Str) : SeqState :=
  { st with curr_nodes := st.curr_nodes.push (.pline s false),
            python_linenum := st.python_linenum + 1 }

/-- `update_python_linemap` (src/pyp.py line 353): map entry only. -/
def SeqState.update_python_linemap (st : SeqState) (linenum : Nat) : SeqState :=
  { st with python_line_map := (st.python_linenum, linenum) :: st.python_line_map }

/-- `map_increment_linenum` (src/pyp.py lines 349-351). -/
def SeqState.map_increment_linenum (st : SeqState) (linenum : Nat) : SeqState :=
  { st with python_line_map := (st.python_linenum, linenum) :: st.python_line_map,
            python_linenum := st.python_linenum + 1 }

/-- The payload of `ParseError` (src/pyp.py lines 58-68): message text,
offending line, original line number. -/
structure ParseErrorData where
  text : Str
  line : Str
  linenum : Nat

/-- Failures that can escape parsing: a `ParseError`, or the `IndexError`
from `lines.pop(0)` on an exhausted stream inside
`_process_python_block` (src/pyp.py line 161), which nothing catches. -/
inductive PypErr where
  | parseError (e : ParseErrorData)
  | indexError

def pypdefKw : Str := "pypdef".toList

/-- Hidden accumulator initialization `_OUTPUT=[]` (src/pyp.py line 242). -/
def pypdefOutputInit : Str := "_OUTPUT=[]".toList

/-- `r"return '\n'.join(_OUTPUT)"` (src/pyp.py line 281). -/
def pypdefReturnLine : Str := "return '\\n'.join(_OUTPUT)".toList

/-- The middle-control-word branch (src/pyp.py lines 252-271): map the
header line, then fail if no block is open or the middle word's family
does not match, else open a fresh `PythonControlBlock` and point the
insertion list at it. -/
def middle_step (st : SeqState) (l stmt word : Str) (linenum : Nat) :
    Except PypErr SeqState :=
  let st0 := st.map_increment_linenum linenum
  match st0.control_word with
  | none =>
    .error (.parseError ⟨"Found middle control word (".toList ++ word ++
      ") without starting word".toList, l, linenum⟩)
  | some cw =>
    if middle2start word ≠ cw then
      .error (.parseError ⟨"Middle control word (".toList ++ word ++
        ") doesn't match current block ('".toList ++ st0.control_statement ++
        ", line ".toList ++ natStr st0.control_linenum ++ "')".toList, l, linenum⟩)
    else
      .ok { st0 with
              done_blocks := st0.done_blocks.push st0.curr_header st0.curr_nodes,
              curr_header := stmt, curr_nodes := .nil }

/-- The end-control-word branch (src/pyp.py lines 273-292); `.ok` is the
`break` that returns control to the enclosing sequence.  Note the source
emits the `pypdef` return statement before the match checks. -/
def end_step (st : SeqState) (l word : Str) (linenum : Nat) :
    Except PypErr SeqState :=
  let st1 := if word = pypdefKw then st.add_node_unmapped pypdefReturnLine else st
  match st1.control_word with
  | none =>
    .error (.parseError ⟨"Found end control word (end".toList ++ word ++
      ") without starting word".toList, l, linenum⟩)
  | some cw =>
    if word ≠ cw then
      .error (.parseError ⟨"End control word (end".toList ++ word ++
        ") doesn't match current block ('".toList ++ st1.control_statement ++
        ", line ".toList ++ natStr st1.control_linenum ++ "')".toList, l, linenum⟩)
    else .ok st1

/-- Opening a control sequence (src/pyp.py lines 222-243): the new
`PythonIndentedSequence` with `pypdef` inherited or set, `pypdef`
rewritten to `def` in the header, start `python_linenum` one past the
parent's (the header itself occupies one generated line) and — for a
`pypdef` — the hidden `_OUTPUT=[]` node.  `parent.control_word.isSome`
is the `isinstance(self, PythonIndentedSequence)` test. -/
def start_child_state (parent : SeqState) (stmt word : Str) (linenum : Nat) : SeqState :=
  let is_pypdef := if word = pypdefKw then true
                   else parent.control_word.isSome && parent.pypdef
  let cs := if word = pypdefKw then replaceFirst pypdefKw "def".toList stmt else stmt
  let child : SeqState :=
    { control_word := some word, control_statement := cs, control_linenum := linenum,
      pypdef := is_pypdef, python_linenum := parent.python_linenum + 1,
      python_line_map := [], done_blocks := .nil, curr_header := cs, curr_nodes := .nil }
  if word = pypdefKw then child.add_node_unmapped pypdefOutputInit else child

/-- Return from a nested `parse_lines` (src/pyp.py lines 244-248): the
completed child becomes one sequence node of the parent, the parent's
`python_linenum` advances to the child's, and the child's map entries
are merged (`dict.update`: child entries shadow, hence come first). -/
def splice_child (parent child : SeqState) : SeqState :=
  { parent with
      curr_nodes := parent.curr_nodes.push
        (.pseq (child.done_blocks.push child.curr_header child.curr_nodes)),
      python_linenum := child.python_linenum,
      python_line_map := child.python_line_map ++ parent.python_line_map }

/-- End of input with sequences still open: each nested `parse_lines`
loop simply runs out of lines (`while lines:`, src/pyp.py line 201) and
returns to its caller, which splices it in and then itself runs out. -/
def collapse : SeqState → List SeqState → SeqState
  | st, [] => st
  | st, p :: ps => collapse (splice_child p st) ps

/-- Result of the priority dispatch of `parse_lines` on one (already
DUMMYTEXT-stripped) line, src/pyp.py lines 209-306. -/
inductive LineAction where
  | pythonBlock
  | controlStart (stmt word : Str)
  | controlMiddle (stmt word : Str)
  | controlEnd (word : Str)
  | normalPython (g1 : Str)
  | literal

def classify_line (l : Str) : LineAction :=
  if matchPythonBlockStart l then .pythonBlock
  else match matchControlStart l with
  | some sw => .controlStart sw.1 sw.2
  | none =>
    match matchControlMiddle l with
    | some sw => .controlMiddle sw.1 sw.2
    | none =>
      match matchControlEnd l with
      | some w => .controlEnd w
      | none =>
        match percentRest l with
        | some g1 => .normalPython g1
        | none => .literal

/-- One collected line of a `<% ... %>` block: (text, noindent flag) and
original line number. -/
abbrev BlockLine := (Str × Bool) × Nat

/-- `\s{n}` searched once: delete the first run of `n` consecutive
whitespace characters, wherever it occurs. -/
def removeFirstWsRun (n : Nat) : Str → Str
  | [] => []
  | c :: cs =>
    if ((c :: cs).take n).all isPySpace ∧ n ≤ (c :: cs).length then (c :: cs).drop n
    else c :: removeFirstWsRun n cs

/-- `re.sub("\s{%s}" % min_spaces, '', line, count=1)` (src/pyp.py
line 189).  With `min_spaces = 0` the pattern matches the empty string at
position 0 and deletes nothing.  When the block had no nonblank
non-comment line, `min_spaces` is `None` and the formatted pattern is the
degenerate `\s{None}` — a whitespace character followed by the literal
text `{None}` — which matches nothing on any line not containing that
literal text; it is modelled as the identity. -/
def subWsRunOnce (min_spaces : Option Nat) (s : Str) : Str :=
  match min_spaces with
  | none => s
  | some 0 => s
  | some n => removeFirstWsRun n s

/-- Fixup pass of `_process_python_block` (src/pyp.py lines 186-192):
strip `min_spaces` from every line not flagged `noindent`. -/
def fix_python_line (min_spaces : Option Nat) (e : BlockLine) : BlockLine :=
  if e.1.2 then e else ((subWsRunOnce min_spaces e.1.1, e.1.2), e.2)

def fix_python_block (blk : List BlockLine) (min_spaces : Option Nat) : List BlockLine :=
  blk.map (fix_python_line min_spaces)

/-- `for (pythonline, linenum) in compound_block: self.add_node(...)`
(src/pyp.py lines 216-217). -/
def add_block_nodes (st : SeqState) : List BlockLine → SeqState
  | [] => st
  | ((s, noind), ln) :: t => add_block_nodes (st.add_node_mapped s noind ln) t

/-- Parser mode: normal dispatch, or inside a `<% ... %>` block — the
`_process_python_block` collection loop (src/pyp.py lines 150-183) with
its accumulated lines, `in_triplequotes`, `in_triplequotes_next` and
`min_spaces`. -/
inductive ParseMode where
  | normal
  | pyblock (acc : List BlockLine) (in_tq : Bool) (in_tq_next : Bool)
      (min_spaces : Option Nat)

/-- `PythonSequence.parse_lines` (src/pyp.py lines 195-306) together with
`_process_python_block`, as one loop over the destructively consumed line
stream.  `st` is the innermost open sequence and `stack` its ancestors
(immediate parent first): the recursive call
`new_block.parse_lines(lines)` of the source is the push in the
`controlStart` branch, the `break` of the end branch is the pop, and end
of input returns each open sequence to its caller in turn (`collapse`). -/
def parse_lines (st : SeqState) (stack : List SeqState) (mode : ParseMode) :
    List (Str × Nat) → Except PypErr SeqState
  | [] =>
    match mode with
    | .normal => .ok (collapse st stack)
    | .pyblock _ _ _ _ => .error .indexError
  | (line, linenum) :: rest =>
    match mode with
    | .pyblock acc tq tqn minSp =>
      -- src 162-164: the end marker breaks the collection loop, and the
      -- fixed-up block is flushed into the sequence (src 214-219)
      if matchPythonBlockEnd line then
        parse_lines (add_block_nodes st (fix_python_block acc minSp)) stack .normal rest
      else
        -- src 166-183: triple-quote parity, noindent flag, min_spaces
        let tqn1 := if countTriples line % 2 ≠ 0 then ! tqn else tqn
        let minSp1 := if minSp = none ∧ ¬ matchSpaceOrComment line
                      then some (leadingSpaces line) else minSp
        parse_lines st stack (.pyblock (acc ++ [((line, tq), linenum)]) tqn1 tqn1 minSp1) rest
    | .normal =>
      -- src 204-205: full-line comment or placeholder line is skipped
      if matchPypComment line || matchDummytextLine line then
        parse_lines st stack .normal rest
      else
        -- src 207: every DUMMYTEXT occurrence is deleted first
        let l := removeSub DUMMYTEXT line
        match classify_line l with
        | .pythonBlock =>
          -- src 211-219: start collecting the <% block
          parse_lines st stack (.pyblock [] false false none) rest
        | .controlStart stmt word =>
          -- src 222-249: map the header line, open the child sequence
          let st0 := st.update_python_linemap linenum
          parse_lines (start_child_state st0 stmt word linenum) (st0 :: stack) .normal rest
        | .controlMiddle stmt word =>
          match middle_step st l stmt word linenum with
          | .error e => .error e
          | .ok st1 => parse_lines st1 stack .normal rest
        | .controlEnd word =>
          match end_step st l word linenum with
          | .error e => .error e
          | .ok st1 =>
            match stack with
            | parent :: ps => parse_lines (splice_child parent st1) ps .normal rest
            | [] => .ok st1
        | .normalPython g1 =>
          -- src 297-301: raw `%` statement line
          parse_lines (st.add_node_mapped g1 false linenum) stack .normal rest
        | .literal =>
          -- src 303-306: literal text line
          parse_lines (st.add_node_mapped (line_to_pythonstatement st.pypdef l) false linenum)
            stack .normal rest

/-- The fresh root sequence built by `PYPParser.execute` (src/pyp.py
line 589; `PythonSequence.__init__` lines 125-133). -/
def rootSeqState : SeqState :=
  { control_word := none, control_statement := [], control_linenum := 0,
    pypdef := false, python_linenum := 1, python_line_map := [],
    done_blocks := .nil, curr_header := [], curr_nodes := .nil }

/-! ## Code generation -/

def INDENT : Str := "    ".toList

/-- `indent_levels * INDENT` (src/pyp.py line 47). -/
def pyIndent : Nat → Str
  | 0 => []
  | Nat.succ n => INDENT ++ pyIndent n

mutual
/-- `PythonSequence.get_lines_from_nodes` (src/pyp.py lines 326-338) with
the indentation of `get_python_text` (lines 341-346) applied:
a `PythonLine` honours its `noindent` flag (`set_indent`/`get_indented`,
lines 41-47). -/
def get_lines_from_nodes : PNodes → Nat → List Str
  | .nil, _ => []
  | .cons n t, lvl => node_lines n lvl ++ get_lines_from_nodes t lvl

def node_lines : PNode → Nat → List Str
  | .pline s noindent, lvl => [if noindent then s else pyIndent lvl ++ s]
  | .pseq blocks, lvl => blocks_lines blocks lvl

/-- `PythonIndentedSequence.get_lines` (src/pyp.py lines 417-428): each
control block's header at the current depth, its nodes one deeper. -/
def blocks_lines : PBlocks → Nat → List Str
  | .nil, _ => []
  | .cons hdr ns t, lvl =>
    (pyIndent lvl ++ hdr) :: (get_lines_from_nodes ns (lvl + 1) ++ blocks_lines t lvl)
end

/-- `get_python_text` on the root sequence (src/pyp.py lines 341-346). -/
def get_python_text (st : SeqState) : Str := joinNl (get_lines_from_nodes st.curr_nodes 0)

/-! ## The pipeline -/

/-- `PYPParser.execute` up to parsing (src/pyp.py lines 585-603):
preprocess, number the lines, parse them into the root sequence. -/
def pyp_parse (text : Str) : Except PypErr SeqState :=
  parse_lines rootSeqState [] .normal (pyp_textlines text)

/-- The parse-error report printed by `execute` (src/pyp.py
lines 592-601), one entry per `print`. -/
def parse_error_report (input_filename : Str) (e : ParseErrorData) : List Str :=
  [[], "====== PARSE ERROR =========".toList,
   "File \"".toList ++ input_filename ++ "\", line ".toList ++ natStr e.linenum,
   "  ".toList ++ e.line,
   "ParseError: ".toList ++ e.text,
   "============================".toList, []]

/-- The front half of the pipeline (src/pyp.py lines 585-616): on a
`ParseError`, `execute` prints the report and calls `sys.exit(1)` — code
generation and execution are never reached; otherwise the generated
Python text and the merged line map are handed on to
`write_and_execute_python_file`. -/
def pyp_run (text input_filename : Str) : Except (List Str) (Str × List (Nat × Nat)) :=
  match pyp_parse text with
  | .error (.parseError e) => .error (parse_error_report input_filename e)
  | .error .indexError => .error ["IndexError: pop from empty list".toList]
  | .ok st => .ok (get_python_text st, st.python_line_map)

deriving instance DecidableEq for Except

/-! ## Execution / diagnostics bridge -/

/-- Python dict lookup on the association-list line map (newest binding
first). -/
def mapLookup (m : List (Nat × Nat)) (k : Nat) : Option Nat :=
  (m.find? (fun e => e.1 == k)).map Prod.snd

/-- `PYPParser._get_pyp_errorline` (src/pyp.py lines 459-465): resolve a
generated-line number through the map, returning the original line number
and its text, or `(None, None)`.  The source indexes
`self.textlines[source_linenum-1][0]`; for the map entries parsing
produces, that index is always in range (an out-of-range value would
raise IndexError in Python; the model defaults to the empty string). -/
def get_pyp_errorline (map : List (Nat × Nat)) (textlines : List (Str × Nat))
    (error_linenum : Nat) : Option (Nat × Str) :=
  match mapLookup map error_linenum with
  | some source_linenum =>
    some (source_linenum, ((textlines.get? (source_linenum - 1)).map Prod.fst).getD [])
  | none => none

/-- One entry of `traceback.extract_tb`: (filename, line number, function
name, source text). -/
structure Frame where
  filename : Str
  lineno : Nat
  funcname : Str
  text : Str

/-- Modelled from the host runtime: one string of
`traceback.format_list([packet])`, whose documented rendering is
`'  File "%s", line %d, in %s\n    %s\n'`. -/
def format_list_entry (fr : Frame) : Str :=
  "  File \"".toList ++ fr.filename ++ "\", line ".toList ++ natStr fr.lineno ++
    ", in ".toList ++ fr.funcname ++ ('\n' :: "    ".toList) ++ fr.text ++ ['\n']

/-- Modelled from the host runtime: `traceback.format_exception_only` for
a `SyntaxError` carrying a file name, line number, offending text and
message.  Its documented purpose is to display detailed information about
where the syntax error occurred, and its rendering cites the file and
line of the error — for the generated script, the generated file and the
generated line number.  (The caret line, which depends only on the
column offset, is omitted; no claim relies on it.) -/
def format_syntax_exception_only (filename : Str) (lineno : Nat)
    (text msg : Str) : List Str :=
  ["  File \"".toList ++ filename ++ "\", line ".toList ++ natStr lineno ++ ['\n'],
   "    ".toList ++ text ++ ['\n'],
   "SyntaxError: ".toList ++ msg ++ ['\n']]

/-- The `except SyntaxError` branch of
`PYPParser.write_and_execute_python_file` (src/pyp.py lines 502-527), as
the list of printed strings.  `error_linenum` is `exc_value.lineno` (a
generated-line number), `exc_str` is `str(exc_value)` (opaque here),
`pyfile_name`/`syntax_text`/`syntax_msg` feed the host's detailed
rendering of the `SyntaxError`. -/
def syntax_error_report (input_filename : Str) (map : List (Nat × Nat))
    (textlines : List (Str × Nat)) (error_linenum : Nat) (exc_str : Str)
    (pyfile_name syntax_text syntax_msg : Str) : List Str :=
  [[], "======= SYNTAX ERROR =============".toList] ++
  (match get_pyp_errorline map textlines error_linenum with
   | some st =>
     ["File \"".toList ++ input_filename ++ "\", line ".toList ++ natStr st.1,
      "  ".toList ++ st.2]
   | none => ["Sorry, could not find pyp source line".toList]) ++
  ["SyntaxError: ".toList ++ exc_str, [],
   "DETAILED SYNTAX ERROR:".toList,
   strJoin (format_syntax_exception_only pyfile_name error_linenum syntax_text syntax_msg),
   "===================================".toList]

/-- The debug-only per-frame loop at src/pyp.py lines 563-571. -/
def pyp_traceback_lines (input_filename : Str) (map : List (Nat × Nat))
    (textlines : List (Str × Nat)) : List Frame → List Str
  | [] => []
  | fr :: t =>
    (match get_pyp_errorline map textlines fr.lineno with
     | some st =>
       ["  File \"".toList ++ input_filename ++ "\", line ".toList ++ natStr st.1,
        "    ".toList ++ st.2]
     | none => ["(Unknown pyp line)".toList]) ++
    pyp_traceback_lines input_filename map textlines t

/-- The bare `except:` branch of `PYPParser.write_and_execute_python_file`
(src/pyp.py lines 529-573), as the list of printed strings.  The failing
frame is `tb_packets[-1]` — the last entry of the extracted call chain,
taken unconditionally (an empty chain would raise IndexError; modelled as
the empty report, never exercised).  `exc_name`/`exc_str` are
`exc_type.__name__` and `str(exc_value)`, opaque here. -/
def runtime_error_report (debug : Bool) (input_filename : Str)
    (map : List (Nat × Nat)) (textlines : List (Str × Nat))
    (tb_packets : List Frame) (exc_name exc_str : Str) : List Str :=
  match tb_packets.getLast? with
  | none => []
  | some fr =>
    [[], "======= ERROR INFO ================".toList] ++
    (match get_pyp_errorline map textlines fr.lineno with
     | some st =>
       ["File \"".toList ++ input_filename ++ "\", line ".toList ++ natStr st.1,
        "  ".toList ++ st.2]
     | none =>
       ["Sorry, could not find pyp source line".toList,
        strJoin ([fr].map format_list_entry)]) ++
    [exc_name ++ ": ".toList ++ exc_str] ++
    (if debug then
      [[], "TRACEBACK:".toList,
       strJoin ((tb_packets.drop 3).map format_list_entry),
       [], "PYP TRACEBACK:".toList] ++
      pyp_traceback_lines input_filename map textlines (tb_packets.drop 3)
     else []) ++
    ["===================================".toList]

/-- The frame the code actually uses for attribution:
`tb_packets[-1]` (src/pyp.py line 533). -/
def frame_used_by_code (tb_packets : List Frame) : Option Frame :=
  tb_packets.getLast?

/-- Modelled from the spec: "the call chain is walked to the innermost
frame inside the generated unit" — the last frame of the chain whose
filename is the generated file.  The source compiles a regex for exactly
this purpose (`tb_regex`, src/pyp.py line 495) but never uses it. -/
def innermost_generated_frame (tb_packets : List Frame) (genfile : Str) : Option Frame :=
  (tb_packets.filter (fun fr => fr.filename == genfile)).getLast?

/-! ## Output-destination handling (src/pyp.py lines 484-492, 575-580) -/

/-- A file system: association of paths to contents, newest first. -/
def FS := List (Str × Str)

def fsLookup (fs : FS) (p : Str) : Option Str :=
  ((fs.find? (fun e => e.1 == p)).map Prod.snd : Option Str)

/-- `open(p, 'w')` followed by writes and close: the path now holds `c`. -/
def fsWrite (fs : FS) (p : Str) (c : Str) : FS := (p, c) :: fs

/-- `os.remove(p)`. -/
def fsRemove (fs : FS) (p : Str) : FS := fs.filter (fun e => ! (e.1 == p))

/-- `os.rename(src, dst)` (overwrites `dst`; missing `src` would raise in
Python and is modelled as a no-op, never exercised here since the
temporary is always written first). -/
def fsRename (fs : FS) (src dst : Str) : FS :=
  match fsLookup fs src with
  | some c => fsWrite (fsRemove fs src) dst c
  | none => fs

def tmpSuffix : Str := ".tmp".toList

/-- The output-destination protocol of `write_and_execute_python_file`
when an `output_filename` is given (src/pyp.py lines 484-492 and
575-580): all output of the generated program goes to
`output_filename + ".tmp"`; after execution the temporary is renamed onto
the destination on success and removed on failure.  `content` is
whatever `_PRINT` wrote before termination or failure.  The trace lists
every file-system state the protocol passes through, in order. -/
def output_write_trace (fs : FS) (output_filename : Str) (content : Str)
    (success : Bool) : List FS :=
  let temp := output_filename ++ tmpSuffix
  let fs1 := fsWrite fs temp content
  let fs2 := if success then fsRename fs1 temp output_filename
             else fsRemove fs1 temp
  [fs, fs1, fs2]

deriving instance DecidableEq for PNode, PBlocks, PNodes
deriving instance DecidableEq for SeqState
deriving instance DecidableEq for ParseErrorData
deriving instance DecidableEq for PypErr
deriving instance DecidableEq for LineAction
deriving instance DecidableEq for Frame


/-! ## Helper lemmas and sanity checks -/

theorem splitNl_length (s : Str) : (splitNl s).length = countNl s + 1 := by
  induction s with
  | nil => simp [splitNl, countNl]
  | cons c cs ih =>
    by_cases h : c = '\n'
    · have hc : countNl (c :: cs) = countNl cs + 1 := by
        simp [countNl, List.countP_cons, h]
      simp only [splitNl, if_pos h, List.length_cons, ih, hc]
    · have hc : countNl (c :: cs) = countNl cs := by
        simp [countNl, List.countP_cons, h]
      simp only [splitNl, if_neg h]
      rcases hs : splitNl cs with _ | ⟨hd, tl⟩
      · rw [hs] at ih
        exact absurd ih.symm (Nat.succ_ne_zero _)
      · rw [hs] at ih
        simp only [List.length_cons] at ih ⊢
        rw [hc]
        omega
theorem isPrefixOf_append (pat s : Str) (h : pat.isPrefixOf s = true) :
    pat ++ s.drop pat.length = s := by
  induction pat generalizing s with
  | nil => simp
  | cons p ps ih =>
    cases s with
    | nil => simp [List.isPrefixOf] at h
    | cons c cs =>
      simp only [List.isPrefixOf, Bool.and_eq_true, beq_iff_eq] at h
      obtain ⟨h1, h2⟩ := h
      simp [h1, ih cs h2]

theorem splitAtPat_eq (pat s a b : Str) (h : splitAtPat pat s = some (a, b)) :
    s = a ++ pat ++ b := by
  induction s generalizing a b with
  | nil =>
    simp only [splitAtPat] at h
    by_cases hp : pat = ([] : Str)
    · rw [if_pos hp] at h
      simp only [Option.some.injEq, Prod.mk.injEq] at h
      obtain ⟨rfl, rfl⟩ := h
      simp [hp]
    · rw [if_neg hp] at h
      exact absurd h (by simp)
  | cons c cs ih =>
    simp only [splitAtPat] at h
    by_cases hp : pat.isPrefixOf (c :: cs) = true
    · rw [if_pos hp] at h
      simp only [Option.some.injEq, Prod.mk.injEq] at h
      obtain ⟨rfl, rfl⟩ := h
      simp [(isPrefixOf_append pat (c :: cs) hp)]
    · rw [if_neg (by simpa using hp)] at h
      rcases hr : splitAtPat pat cs with _ | ⟨a', b'⟩
      · simp [hr] at h
      · rw [hr] at h
        simp only [Option.map_some', Option.some.injEq, Prod.mk.injEq] at h
        obtain ⟨rfl, rfl⟩ := h
        simpa using congrArg (fun l => c :: l) (ih a' b' hr)

theorem splitAtPat_length (pat s a b : Str) (h : splitAtPat pat s = some (a, b)) :
    a.length + pat.length + b.length = s.length := by
  have := splitAtPat_eq pat s a b h
  subst this
  simp
  omega

/-- For a one-character pattern, the part before the first occurrence does
not contain the character. -/
theorem splitAtPat_single_head_notMem (c : Char) (s a b : Str)
    (h : splitAtPat [c] s = some (a, b)) : c ∉ a := by
  induction s generalizing a b with
  | nil => simp [splitAtPat] at h
  | cons d ds ih =>
    simp only [splitAtPat] at h
    by_cases hp : [c].isPrefixOf (d :: ds) = true
    · rw [if_pos hp] at h
      simp only [Option.some.injEq, Prod.mk.injEq] at h
      obtain ⟨rfl, rfl⟩ := h
      simp
    · rw [if_neg (by simpa using hp)] at h
      rcases hr : splitAtPat [c] ds with _ | ⟨a', b'⟩
      · simp [hr] at h
      · rw [hr] at h
        simp only [Option.map_some', Option.some.injEq, Prod.mk.injEq] at h
        obtain ⟨rfl, rfl⟩ := h
        have hcd : ¬ c = d := by
          intro hcd
          apply hp
          simp [List.isPrefixOf, hcd]
        simp only [List.mem_cons]
        rintro (h1 | h2)
        · exact hcd h1
        · exact ih a' b' hr h2
theorem removeSubGo_no_occurrence (pat : Str) (f : Nat) (s : Str) (h : ¬ pat <:+: s) :
    removeSubGo pat f s = s := by
  induction f generalizing s with
  | zero => cases s <;> rfl
  | succ f ih =>
    cases s with
    | nil => rfl
    | cons c cs =>
      have hcond : ¬ (pat ≠ [] ∧ pat.isPrefixOf (c :: cs) = true) := by
        rintro ⟨-, hpre⟩
        exact h ((List.isPrefixOf_iff_prefix.mp hpre).isInfix)
      rw [removeSubGo, if_neg hcond]
      have hcs : ¬ pat <:+: cs := fun hinf => h (hinf.trans (List.suffix_cons c cs).isInfix)
      rw [ih cs hcs]

theorem removeSub_no_occurrence (pat s : Str) (h : ¬ pat <:+: s) :
    removeSub pat s = s := removeSubGo_no_occurrence pat s.length s h

-- quick sanity checks (concrete evaluation through the kernel)
example : countNl "a\nb\nc".toList = 2 := by decide
example : splitNl "a\nb".toList = ["a".toList, "b".toList] := by decide
example : splitAtPat "$\x7b".toList "x$\x7by\x7dz".toList
    = some ("x".toList, "y\x7dz".toList) := by decide
example : removeSub "DUMMYTEXT".toList "aDUMMYTEXTb".toList = "ab".toList := by decide
example : escape_quotes "a'b".toList = "a\\'b".toList := by decide
example : natStr 42 = "42".toList := by decide
example : joinNl ["ab".toList, "c".toList] = "ab\nc".toList := by decide
theorem countNl_append (a b : Str) : countNl (a ++ b) = countNl a + countNl b := by
  simp [countNl, List.countP_append]

theorem countNl_mapNlSpace (s : Str) : countNl (mapNlSpace s) = 0 := by
  induction s with
  | nil => rfl
  | cons c cs ih =>
    by_cases h : c = '\n' <;>
      simp [mapNlSpace, countNl, List.countP_cons, h] at ih ⊢ <;>
      simpa [countNl, mapNlSpace] using ih

theorem countNl_dummyPad (n : Nat) : countNl (dummyPad n) = n := by
  induction n with
  | zero => rfl
  | succ n ih =>
    have : countNl dummyline = 1 := by decide
    simp [dummyPad, countNl_append, this, ih]
    omega

theorem countNl_preSubGo (f : Nat) (s : Str) : countNl (preSubGo f s) = countNl s := by
  induction f generalizing s with
  | zero => rfl
  | succ f ih =>
    rw [preSubGo]
    rcases h1 : splitAtPat exprOpen s with _ | ⟨pre, rest⟩
    · simp [h1]
    · rcases h2 : splitAtPat exprClose rest with _ | ⟨inner, post⟩
      · simp [h1, h2]
      · have e1 := splitAtPat_eq _ _ _ _ h1
        have e2 := splitAtPat_eq _ _ _ _ h2
        have hopen : countNl exprOpen = 0 := by decide
        have hclose : countNl exprClose = 0 := by decide
        simp only [h1, h2]
        rw [e1, e2]
        simp [countNl_append, hopen, hclose, countNl_mapNlSpace,
          countNl_dummyPad, ih]

/-! ## Literal-line transformation (`line_to_pythonstatement`, src 357-385) -/
example : line_to_pythonstatement false "Hello $\x7bname\x7d!".toList
    = "_PRINT('Hello %s!' % ((name),))".toList := by decide
example : line_to_pythonstatement true "Hi $\x7bn\x7d".toList
    = "_OUTPUT.append('Hi %s' % ((n),))".toList := by decide
example : line_to_pythonstatement false "hello".toList
    = "_PRINT(('hello'))".toList := by decide
example : line_to_pythonstatement false "a $\x7bx\x7d b $\x7by + 1\x7d".toList
    = "_PRINT('a %s b %s' % ((x),(y + 1),))".toList := by decide
example : matchControlStart "%for x in y:".toList = some ("for x in y:".toList, "for".toList) := by decide
example : matchControlStart "  %  if x > 0:".toList = some ("if x > 0:".toList, "if".toList) := by decide
example : matchControlStart "%endfor".toList = none := by decide
example : matchControlMiddle "%else:".toList = some ("else:".toList, "else".toList) := by decide
example : matchControlEnd "%endif".toList = some "if".toList := by decide
example : matchControlEnd "% endpypdef".toList = some "pypdef".toList := by decide
example : matchPypComment "  ## hi".toList = true := by decide
example : matchDummytextLine "DUMMYTEXT  ".toList = true := by decide
example : matchDummytextLine "  DUMMYTEXT".toList = false := by decide
example : countTriples "x = \"\"\" y '''".toList = 2 := by decide
example : percentRest "% x = 5".toList = some "x = 5".toList := by decide
example : pyp_run "hello".toList "t.pyp".toList
    = .ok ("_PRINT(('hello'))".toList, [(1, 1)]) := by decide
example : pyp_run "%if x > 0:\n$\x7bx\x7d\n%else:\nnegative\n%endif".toList "t.pyp".toList
    = .ok (("if x > 0:\n    _PRINT('%s' % ((x),))\n" ++
            "else:\n    _PRINT(('negative'))").toList,
           [(4, 4), (3, 3), (2, 2), (1, 1)]) := by decide
example : pyp_run "%pypdef greet(n):\nHi $\x7bn\x7d\n%endpypdef".toList "t.pyp".toList
    = .ok (("def greet(n):\n    _OUTPUT=[]\n    _OUTPUT.append('Hi %s' % ((n),))\n" ++
            "    return '\\n'.join(_OUTPUT)").toList,
           [(3, 2), (1, 1)]) := by decide

/-! ## Claim theorems -/

/-- C6: for every input text, the preprocessor's output has exactly the
same physical line count as the original, and every original physical
line number appears exactly once in the stream of (text, line-number)
pairs — the numbers attached are exactly `1, 2, ..., n` in order. -/
theorem claim_C6 (t : Str) :
    (splitNl (preprocess_text t)).length = (splitNl t).length ∧
    (pyp_textlines t).map Prod.snd = List.range' 1 ((splitNl t).length) := by
  have hcount : (splitNl (preprocess_text t)).length = (splitNl t).length := by
    rw [splitNl_length, splitNl_length, preprocess_text, countNl_preSubGo]
  refine ⟨hcount, ?_⟩
  rw [pyp_textlines, ← hcount]
  exact List.map_snd_zip _ _ (by rw [List.length_range'])

/-- C2 counterexample: the claim says an unclosed `%if` block makes
parsing fail at end of input, but this input parses successfully — the
completed tree is produced and generation proceeds. -/
theorem claim_C2_counterexample :
    pyp_run "%if True:\nhello".toList "t.pyp".toList
      = .ok ("if True:\n    _PRINT(('hello'))".toList, [(2, 2), (1, 1)]) := by decide

/-- C2 amended: an input whose control-start keyword line is never closed
does NOT fail: end of input implicitly closes every open ControlSequence
(`while lines:` simply runs out, each nested `parse_lines` returns
normally and is spliced into its parent), a completed tree is produced,
and generation and execution proceed. -/
theorem claim_C2_amended :
    (∀ (st : SeqState) (stack : List SeqState),
      parse_lines st stack .normal [] = .ok (collapse st stack)) ∧
    pyp_run "%if True:\nhello".toList "t.pyp".toList
      = .ok ("if True:\n    _PRINT(('hello'))".toList, [(2, 2), (1, 1)]) := by
  exact ⟨fun st stack => rfl, by decide⟩

/-- C10: a line that is exactly `DUMMYTEXT` plus optional trailing
whitespace is skipped outright — no node, no map entry; every line that
is not skipped has all `DUMMYTEXT` occurrences deleted before the
classification dispatch and emission (shown here for the literal-line
outcome, whose emitted statement is built from the deleted line); and a
template whose literal text merely contains `DUMMYTEXT` is emitted with
that text removed, or dropped entirely, even with no multi-line
expressions in play. -/
theorem claim_C10 :
    (∀ (st : SeqState) (stack : List SeqState) (line : Str) (linenum : Nat)
        (rest : List (Str × Nat)),
      matchDummytextLine line = true →
      parse_lines st stack .normal ((line, linenum) :: rest) =
        parse_lines st stack .normal rest) ∧
    (∀ (st : SeqState) (stack : List SeqState) (line : Str) (linenum : Nat)
        (rest : List (Str × Nat)),
      (matchPypComment line || matchDummytextLine line) = false →
      classify_line (removeSub DUMMYTEXT line) = .literal →
      parse_lines st stack .normal ((line, linenum) :: rest) =
        parse_lines (st.add_node_mapped
            (line_to_pythonstatement st.pypdef (removeSub DUMMYTEXT line)) false linenum)
          stack .normal rest) ∧
    pyp_run "say DUMMYTEXTnow".toList "t.pyp".toList
      = .ok ("_PRINT(('say now'))".toList, [(1, 1)]) ∧
    pyp_run "DUMMYTEXT".toList "t.pyp".toList = .ok ([], []) := by
  refine ⟨?_, ?_, by decide, by decide⟩
  · intro st stack line linenum rest h
    rw [parse_lines]
    simp [h]
  · intro st stack line linenum rest hskip hlit
    rw [parse_lines]
    simp [hskip, hlit]

/-- C10 witness. -/
theorem claim_C10_witness :
    parse_lines rootSeqState [] .normal [("DUMMYTEXT  ".toList, 7)] =
      parse_lines rootSeqState [] .normal [] :=
  claim_C10.1 rootSeqState [] "DUMMYTEXT  ".toList 7 [] (by decide)

theorem middle_step_mismatch (st : SeqState) (l stmt word : Str) (linenum : Nat)
    (h : st.control_word ≠ some (middle2start word)) :
    ∃ msg, middle_step st l stmt word linenum =
      .error (.parseError ⟨msg, l, linenum⟩) := by
  unfold middle_step
  rcases hcw : st.control_word with _ | cw
  · exact ⟨"Found middle control word (".toList ++ word ++
      ") without starting word".toList,
      by simp [SeqState.map_increment_linenum, hcw]⟩
  · have hne : middle2start word ≠ cw := fun he => h (by rw [hcw, he])
    exact ⟨"Middle control word (".toList ++ word ++
      ") doesn't match current block ('".toList ++ st.control_statement ++
      ", line ".toList ++ natStr st.control_linenum ++ "')".toList,
      by simp [SeqState.map_increment_linenum, hcw, hne]⟩

theorem end_step_mismatch (st : SeqState) (l word : Str) (linenum : Nat)
    (h : st.control_word ≠ some word) :
    ∃ msg, end_step st l word linenum =
      .error (.parseError ⟨msg, l, linenum⟩) := by
  unfold end_step
  by_cases hw : word = pypdefKw <;>
    rcases hcw : st.control_word with _ | cw
  · exact ⟨"Found end control word (end".toList ++ word ++
      ") without starting word".toList,
      by simp [hw, SeqState.add_node_unmapped, hcw]⟩
  · have hne : word ≠ cw := fun he => h (by rw [hcw, he])
    have hne2 : ¬ pypdefKw = cw := hw ▸ hne
    exact ⟨"End control word (end".toList ++ word ++
      ") doesn't match current block ('".toList ++ st.control_statement ++
      ", line ".toList ++ natStr st.control_linenum ++ "')".toList,
      by simp [hw, SeqState.add_node_unmapped, hcw, hne2]⟩
  · exact ⟨"Found end control word (end".toList ++ word ++
      ") without starting word".toList, by simp [hw, hcw]⟩
  · have hne : word ≠ cw := fun he => h (by rw [hcw, he])
    exact ⟨"End control word (end".toList ++ word ++
      ") doesn't match current block ('".toList ++ st.control_statement ++
      ", line ".toList ++ natStr st.control_linenum ++ "')".toList,
      by simp [hw, hcw, hne]⟩

/-- C1: a control-middle or control-end keyword line whose keyword does
not match the currently open ControlSequence's keyword family (including
when no block is open at all, `control_word = none`) makes parsing raise
a ParseError that carries the offending line's text (after placeholder
deletion, which leaves ordinary lines unchanged) and exactly that line's
original number; and on any ParseError the pipeline emits only the
parse-error report — code generation and execution are never reached. -/
theorem claim_C1 :
    (∀ (st : SeqState) (stack : List SeqState) (line : Str) (linenum : Nat)
        (rest : List (Str × Nat)) (stmt word : Str),
      (matchPypComment line || matchDummytextLine line) = false →
      classify_line (removeSub DUMMYTEXT line) = .controlMiddle stmt word →
      st.control_word ≠ some (middle2start word) →
      ∃ msg, parse_lines st stack .normal ((line, linenum) :: rest) =
        .error (.parseError ⟨msg, removeSub DUMMYTEXT line, linenum⟩)) ∧
    (∀ (st : SeqState) (stack : List SeqState) (line : Str) (linenum : Nat)
        (rest : List (Str × Nat)) (word : Str),
      (matchPypComment line || matchDummytextLine line) = false →
      classify_line (removeSub DUMMYTEXT line) = .controlEnd word →
      st.control_word ≠ some word →
      ∃ msg, parse_lines st stack .normal ((line, linenum) :: rest) =
        .error (.parseError ⟨msg, removeSub DUMMYTEXT line, linenum⟩)) ∧
    (∀ (text input_filename : Str) (e : ParseErrorData),
      pyp_parse text = .error (.parseError e) →
      pyp_run text input_filename = .error (parse_error_report input_filename e)) := by
  refine ⟨?_, ?_, ?_⟩
  · intro st stack line linenum rest stmt word hskip hclass h
    obtain ⟨msg, hm⟩ :=
      middle_step_mismatch st (removeSub DUMMYTEXT line) stmt word linenum h
    refine ⟨msg, ?_⟩
    rw [parse_lines]
    simp [hskip, hclass, hm]
  · intro st stack line linenum rest word hskip hclass h
    obtain ⟨msg, hm⟩ :=
      end_step_mismatch st (removeSub DUMMYTEXT line) word linenum h
    refine ⟨msg, ?_⟩
    rw [parse_lines]
    simp [hskip, hclass, hm]
  · intro text input_filename e hparse
    simp only [pyp_run, hparse]

/-- C1 witness: inside an open `%for` block, `%endif` (line 2) and
`%else:` (line 2) each raise a ParseError carrying that line and line
number 2, and the full pipeline on `%for i in x:` / `%endif` stops with
the parse-error report. -/
theorem claim_C1_witness :
    (∃ msg, parse_lines
        (start_child_state (SeqState.update_python_linemap rootSeqState 1)
          "for i in x:".toList "for".toList 1) [] .normal
        [("%else:".toList, 2)] =
      .error (.parseError ⟨msg, removeSub DUMMYTEXT "%else:".toList, 2⟩)) ∧
    (∃ msg, parse_lines
        (start_child_state (SeqState.update_python_linemap rootSeqState 1)
          "for i in x:".toList "for".toList 1) [] .normal
        [("%endif".toList, 2)] =
      .error (.parseError ⟨msg, removeSub DUMMYTEXT "%endif".toList, 2⟩)) ∧
    pyp_run "%for i in x:\n%endif".toList "t.pyp".toList =
      .error (parse_error_report "t.pyp".toList
        ⟨("End control word (endif) doesn't match current block " ++
          "('for i in x:, line 1')").toList, "%endif".toList, 2⟩) :=
  ⟨claim_C1.1 _ [] "%else:".toList 2 [] "else:".toList "else".toList
      (by decide) (by decide) (by decide),
   claim_C1.2.1 _ [] "%endif".toList 2 [] "if".toList
      (by decide) (by decide) (by decide),
   claim_C1.2.2 _ _ _ (by decide)⟩

theorem exprFindallGo_no_close (f : Nat) (s e : Str)
    (he : e ∈ exprFindallGo f s) : '\x7d' ∉ e := by
  induction f generalizing s with
  | zero => simp [exprFindallGo] at he
  | succ f ih =>
    rw [exprFindallGo] at he
    rcases h1 : splitAtPat exprOpen s with _ | ⟨pre, rest⟩
    · simp [h1] at he
    · simp only [h1] at he
      rcases h2 : splitAtPat exprClose rest with _ | ⟨inner, post⟩
      · simp [h2] at he
      · simp only [h2, List.mem_cons] at he
        rcases he with rfl | hmem
        · exact splitAtPat_single_head_notMem '\x7d' rest e post h2
        · exact ih post hmem

/-- The cleanup is the identity on any expression text containing neither
marker substring (inner texts can never contain the close marker). -/
theorem cleanExpr_id (e : Str) (hopen : ¬ exprOpen <:+: e) (hclose : '\x7d' ∉ e) :
    cleanExpr e = e := by
  unfold cleanExpr
  rw [removeSub_no_occurrence exprOpen e hopen]
  apply removeSub_no_occurrence
  rintro ⟨s, t, hst⟩
  apply hclose
  rw [← hst]
  simp [show exprClose = ['\x7d'] from rfl]

/-- C3 counterexample: for the literal line `$\x7ba$\x7bb\x7d` the single
embedded-expression text, exactly as written, is `a$\x7bb`, but the
generated call's format argument is `ab`: the transformer deletes the
`$\x7b` occurring inside the expression text rather than passing it
through unparsed. -/
theorem claim_C3_counterexample :
    exprFindall "$\x7ba$\x7bb\x7d".toList = ["a$\x7bb".toList] ∧
    exprs_cleaned (exprFindall "$\x7ba$\x7bb\x7d".toList) = ["ab".toList] ∧
    line_to_pythonstatement false "$\x7ba$\x7bb\x7d".toList
      = "_PRINT('%s' % ((ab),))".toList ∧
    ("a$\x7bb".toList : Str) ≠ "ab".toList := by decide

/-- C3 amended: every literal text line becomes exactly one emission
statement; its format arguments are the embedded-expression texts with
every occurrence of the `$\x7b` (and `\x7d`) marker substring deleted, in
the same left-to-right order as the markers (`exprs_cleaned` maps the
cleanup over the match list); the deletion is the identity — the texts
appear exactly as written — whenever no expression text itself contains
the open marker (no expression text can contain the close marker); and
the line `Hello $\x7bname\x7d!` outside any function block yields the
call `_PRINT('Hello %s!' % ((name),))`. -/
theorem claim_C3_amended :
    (∀ (st : SeqState) (stack : List SeqState) (line : Str) (linenum : Nat)
        (rest : List (Str × Nat)),
      (matchPypComment line || matchDummytextLine line) = false →
      classify_line (removeSub DUMMYTEXT line) = .literal →
      parse_lines st stack .normal ((line, linenum) :: rest) =
        parse_lines (st.add_node_mapped
            (line_to_pythonstatement st.pypdef (removeSub DUMMYTEXT line)) false linenum)
          stack .normal rest) ∧
    (∀ exprs : List Str, exprs_cleaned exprs = exprs.map cleanExpr ∧
      (exprs_cleaned exprs).length = exprs.length) ∧
    (∀ (line e : Str), e ∈ exprFindall line → '\x7d' ∉ e) ∧
    (∀ line : Str, (∀ e ∈ exprFindall line, ¬ exprOpen <:+: e) →
      exprs_cleaned (exprFindall line) = exprFindall line) ∧
    line_to_pythonstatement false "Hello $\x7bname\x7d!".toList
      = "_PRINT('Hello %s!' % ((name),))".toList := by
  refine ⟨?_, ?_, ?_, ?_, by decide⟩
  · intro st stack line linenum rest hskip hlit
    rw [parse_lines]
    simp [hskip, hlit]
  · intro exprs
    exact ⟨rfl, by simp [exprs_cleaned]⟩
  · intro line e he
    exact exprFindallGo_no_close line.length line e he
  · intro line hline
    have hpt : ∀ e ∈ exprFindall line, cleanExpr e = e := fun e he =>
      cleanExpr_id e (hline e he) (exprFindallGo_no_close line.length line e he)
    unfold exprs_cleaned
    calc (exprFindall line).map cleanExpr
        = (exprFindall line).map id := List.map_congr_left hpt
      _ = exprFindall line := List.map_id _

/-- C3 witness. -/
theorem claim_C3_witness :
    exprs_cleaned (exprFindall "Hello $\x7bname\x7d!".toList)
      = exprFindall "Hello $\x7bname\x7d!".toList :=
  claim_C3_amended.2.2.2.1 "Hello $\x7bname\x7d!".toList (by decide)

/-- C4: the spec's named-template-function example generates exactly the
function that (1) initializes the hidden accumulator right after the
header, (2) appends the formatted literal to it, and (3) returns the
accumulator joined by newlines before control returns; moreover, in
general: every literal-line emission under an accumulator-flagged
sequence uses `_OUTPUT.append`; a freshly opened `pypdef` block starts
with the `_OUTPUT=[]` node and carries the accumulator flag; its matching
end-keyword appends the return statement before closing; and any control
block nested inside an accumulator-flagged sequence inherits the flag, so
literal lines anywhere inside the block append to the accumulator. -/
theorem claim_C4 :
    pyp_run "%pypdef greet(n):\nHi $\x7bn\x7d\n%endpypdef".toList "t.pyp".toList
      = .ok (("def greet(n):\n    _OUTPUT=[]\n    _OUTPUT.append('Hi %s' % ((n),))\n" ++
              "    return '\\n'.join(_OUTPUT)").toList, [(3, 2), (1, 1)]) ∧
    (∀ line : Str,
      OUTPUT_APPEND.isPrefixOf (line_to_pythonstatement true line) = true) ∧
    (∀ (parent : SeqState) (stmt : Str) (linenum : Nat),
      (start_child_state parent stmt pypdefKw linenum).curr_nodes =
        PNodes.cons (.pline pypdefOutputInit false) .nil ∧
      (start_child_state parent stmt pypdefKw linenum).pypdef = true) ∧
    (∀ (st : SeqState) (l : Str) (linenum : Nat),
      st.control_word = some pypdefKw →
      end_step st l pypdefKw linenum = .ok (st.add_node_unmapped pypdefReturnLine)) ∧
    (∀ (parent : SeqState) (stmt word : Str) (linenum : Nat),
      parent.control_word.isSome = true → parent.pypdef = true →
      (start_child_state parent stmt word linenum).pypdef = true) := by
  refine ⟨by decide, ?_, ?_, ?_, ?_⟩
  · intro line
    rw [List.isPrefixOf_iff_prefix]
    by_cases he : exprFindall line = []
    · simp [line_to_pythonstatement, he]
    · simp [line_to_pythonstatement, he]
  · intro parent stmt linenum
    constructor <;>
      simp [start_child_state, SeqState.add_node_unmapped, PNodes.push, PNodes.append]
  · intro st l linenum hcw
    unfold end_step
    simp [SeqState.add_node_unmapped, hcw]
  · intro parent stmt word linenum h1 h2
    by_cases hw : word = pypdefKw
    · simp [start_child_state, hw, SeqState.add_node_unmapped]
    · simp [start_child_state, hw, h1, h2]

/-- C4 witness. -/
theorem claim_C4_witness :
    end_step (start_child_state (SeqState.update_python_linemap rootSeqState 1)
        "pypdef greet(n):".toList pypdefKw 1) "%endpypdef".toList pypdefKw 3 =
      .ok ((start_child_state (SeqState.update_python_linemap rootSeqState 1)
        "pypdef greet(n):".toList pypdefKw 1).add_node_unmapped pypdefReturnLine) ∧
    (start_child_state (start_child_state (SeqState.update_python_linemap rootSeqState 1)
        "pypdef greet(n):".toList pypdefKw 1) "for i in x:".toList "for".toList 2).pypdef
      = true :=
  ⟨claim_C4.2.2.2.1 _ "%endpypdef".toList 3 (by decide),
   claim_C4.2.2.2.2 _ "for i in x:".toList "for".toList 2 (by decide) (by decide)⟩

theorem subWsRunOnce_prefix (n : Nat) (s : Str)
    (h1 : (s.take n).all isPySpace = true) (h2 : n ≤ s.length) :
    subWsRunOnce (some n) s = s.drop n := by
  cases n with
  | zero => simp [subWsRunOnce]
  | succ n =>
    cases s with
    | nil => simp at h2
    | cons c cs =>
      show removeFirstWsRun (n + 1) (c :: cs) = (c :: cs).drop (n + 1)
      rw [removeFirstWsRun, if_pos ⟨h1, h2⟩]

/-- C7 counterexample: inside this verbatim block the common prefix width
is 4 (from `    a = 1`), and the second line `b('c    d')` has no leading
whitespace at all — by the claim it must be emitted unmodified — yet the
code deletes the first run of 4 whitespace characters found anywhere in
the line, producing `b('cd')`. -/
theorem claim_C7_counterexample :
    pyp_run "<%\n    a = 1\nb('c    d')\n%>".toList "t.pyp".toList
      = .ok ("a = 1\nb('cd')".toList, [(2, 3), (1, 2)]) ∧
    subWsRunOnce (some 4) "b('c    d')".toList = "b('cd')".toList ∧
    leadingSpaces "b('c    d')".toList = 0 ∧
    ("b('cd')".toList : Str) ≠ "b('c    d')".toList := by decide

/-- C7 amended: within a verbatim block, lines in no-strip mode (the
triple-quote parity toggle, demonstrated concretely below on a block
whose `'''` literal spans three lines) pass through the fixup unmodified;
every other line has the FIRST run of `min_spaces` consecutive
whitespace characters deleted, wherever in the line that run occurs —
which coincides with stripping the common leading prefix exactly when
the line begins with at least `min_spaces` whitespace characters. -/
theorem claim_C7_amended :
    (∀ (minSp : Option Nat) (s : Str) (ln : Nat),
      fix_python_line minSp ((s, true), ln) = ((s, true), ln)) ∧
    (∀ (n : Nat) (s : Str), (s.take n).all isPySpace = true → n ≤ s.length →
      subWsRunOnce (some n) s = s.drop n) ∧
    pyp_run "<%\n    x = '''\nhold\n'''\n    y = 1\n%>".toList "t.pyp".toList
      = .ok ("x = '''\nhold\n'''\ny = 1".toList,
             [(4, 5), (3, 4), (2, 3), (1, 2)]) := by
  refine ⟨?_, subWsRunOnce_prefix, by decide⟩
  intro minSp s ln
  rfl

/-- C7 witness. -/
theorem claim_C7_witness :
    subWsRunOnce (some 4) "    a = 1".toList = "    a = 1".toList.drop 4 :=
  claim_C7_amended.2.1 4 "    a = 1".toList (by decide) (by decide)

theorem fsLookup_write_same (fs : FS) (p c : Str) :
    fsLookup (fsWrite fs p c) p = some c := by
  simp [fsLookup, fsWrite, List.find?_cons]

theorem fsLookup_write_other (fs : FS) (p c q : Str) (h : q ≠ p) :
    fsLookup (fsWrite fs p c) q = fsLookup fs q := by
  simp [fsLookup, fsWrite, List.find?_cons, Ne.symm h]

theorem find?_cons_true {α : Type} (p : α → Bool) (a : α) (l : List α)
    (h : p a = true) : (a :: l).find? p = some a := by
  simp [List.find?_cons, h]

theorem find?_cons_false {α : Type} (p : α → Bool) (a : α) (l : List α)
    (h : p a = false) : (a :: l).find? p = l.find? p := by
  simp [List.find?_cons, h]

theorem filter_cons_true {α : Type} (p : α → Bool) (a : α) (l : List α)
    (h : p a = true) : (a :: l).filter p = a :: l.filter p := by
  simp [List.filter_cons, h]

theorem filter_cons_false {α : Type} (p : α → Bool) (a : α) (l : List α)
    (h : p a = false) : (a :: l).filter p = l.filter p := by
  simp [List.filter_cons, h]

theorem find?_filter_same (t : FS) (p : Str) :
    (t.filter (fun e => ! (e.1 == p))).find? (fun e => e.1 == p) = none := by
  induction t with
  | nil => rfl
  | cons e t ih =>
    by_cases hk : e.1 = p
    · rw [filter_cons_false _ e t (by simp [hk])]
      exact ih
    · rw [filter_cons_true _ e t (by simp [hk]),
          find?_cons_false _ e _ (by simp [hk])]
      exact ih

theorem find?_filter_ne (t : FS) (p q : Str) (h : q ≠ p) :
    (t.filter (fun e => ! (e.1 == p))).find? (fun e => e.1 == q)
      = t.find? (fun e => e.1 == q) := by
  induction t with
  | nil => rfl
  | cons e t ih =>
    by_cases hk : e.1 = p
    · have hq2 : (e.1 == q) = false := by
        rw [hk]
        simp
        exact Ne.symm h
      rw [filter_cons_false _ e t (by simp [hk]), ih, find?_cons_false _ e t hq2]
    · by_cases hq : e.1 = q
      · rw [filter_cons_true _ e t (by simp [hk]),
            find?_cons_true _ e _ (by simp [hq]),
            find?_cons_true _ e t (by simp [hq])]
      · rw [filter_cons_true _ e t (by simp [hk]),
            find?_cons_false _ e _ (by simp [hq]),
            find?_cons_false _ e t (by simp [hq]), ih]

theorem fsLookup_remove_same (fs : FS) (p : Str) :
    fsLookup (fsRemove fs p) p = none := by
  unfold fsLookup fsRemove
  rw [find?_filter_same]
  rfl

theorem fsLookup_remove_other (fs : FS) (p q : Str) (h : q ≠ p) :
    fsLookup (fsRemove fs p) q = fsLookup fs q := by
  unfold fsLookup fsRemove
  rw [find?_filter_ne fs p q h]

/-- C9: with an output destination `out`, the generated program's output
is written only to the temporary path `out ++ ".tmp"` (a path distinct
from `out`); the trace of file-system states is exactly initial,
temp-written, finalized; while the temporary is being written the
destination is untouched; and in the final state the temporary is gone
and the destination holds the full output on success and its original
value (never created nor modified) on any failure. -/
theorem claim_C9 (fs : FS) (out content : Str) (success : Bool) :
    out ++ tmpSuffix ≠ out ∧
    output_write_trace fs out content success =
      [fs, fsWrite fs (out ++ tmpSuffix) content,
       if success then
         fsRename (fsWrite fs (out ++ tmpSuffix) content) (out ++ tmpSuffix) out
       else fsRemove (fsWrite fs (out ++ tmpSuffix) content) (out ++ tmpSuffix)] ∧
    fsLookup (fsWrite fs (out ++ tmpSuffix) content) out = fsLookup fs out ∧
    fsLookup
      (if success then
         fsRename (fsWrite fs (out ++ tmpSuffix) content) (out ++ tmpSuffix) out
       else fsRemove (fsWrite fs (out ++ tmpSuffix) content) (out ++ tmpSuffix))
      (out ++ tmpSuffix) = none ∧
    fsLookup
      (if success then
         fsRename (fsWrite fs (out ++ tmpSuffix) content) (out ++ tmpSuffix) out
       else fsRemove (fsWrite fs (out ++ tmpSuffix) content) (out ++ tmpSuffix))
      out = (if success then some content else fsLookup fs out) := by
  have hne : out ++ tmpSuffix ≠ out := by
    intro he
    have hl := congrArg List.length he
    simp [tmpSuffix] at hl
  have hne2 : out ≠ out ++ tmpSuffix := Ne.symm hne
  refine ⟨hne, rfl, fsLookup_write_other fs _ content out hne2, ?_, ?_⟩
  · cases success
    · simp only [Bool.false_eq_true, if_false]
      exact fsLookup_remove_same _ _
    · simp only [if_true]
      rw [fsRename, fsLookup_write_same]
      rw [fsLookup_write_other _ _ _ _ hne]
      exact fsLookup_remove_same _ _
  · cases success
    · simp only [Bool.false_eq_true, if_false]
      rw [fsLookup_remove_other _ _ _ hne2]
      exact fsLookup_write_other fs _ content out hne2
    · simp only [if_true]
      rw [fsRename, fsLookup_write_same]
      exact fsLookup_write_same _ _ _

/-- C8 (code bug): the runtime-failure frame used for line attribution is
`tb_packets[-1]`, the innermost frame of the WHOLE call chain, taken
unconditionally — not the innermost frame inside the generated unit (the
`tb_regex` compiled at src/pyp.py line 495 for exactly that filtering is
never used).  Failing input: the template `% import helper` /
`% helper.boom()` where `helper.boom` (helper.py line 1) raises: the
chain ends in helper.py line 1, so the diagnostic cites original line 1
(`% import helper`), although the innermost generated-unit frame is
generated line 2, whose mapped original line is 2 (`% helper.boom()`). -/
theorem claim_C8 :
    pyp_run "% import helper\n% helper.boom()".toList "t.pyp".toList
      = .ok ("import helper\nhelper.boom()".toList, [(2, 2), (1, 1)]) ∧
    frame_used_by_code
        [⟨"/tmp/gen.py".toList, 2, "<module>".toList, "helper.boom()".toList⟩,
         ⟨"helper.py".toList, 1, "boom".toList, "raise ValueError()".toList⟩]
      = some ⟨"helper.py".toList, 1, "boom".toList, "raise ValueError()".toList⟩ ∧
    innermost_generated_frame
        [⟨"/tmp/gen.py".toList, 2, "<module>".toList, "helper.boom()".toList⟩,
         ⟨"helper.py".toList, 1, "boom".toList, "raise ValueError()".toList⟩]
        "/tmp/gen.py".toList
      = some ⟨"/tmp/gen.py".toList, 2, "<module>".toList, "helper.boom()".toList⟩ ∧
    mapLookup [(2, 2), (1, 1)] 2 = some 2 ∧
    runtime_error_report false "t.pyp".toList [(2, 2), (1, 1)]
        (pyp_textlines "% import helper\n% helper.boom()".toList)
        [⟨"/tmp/gen.py".toList, 2, "<module>".toList, "helper.boom()".toList⟩,
         ⟨"helper.py".toList, 1, "boom".toList, "raise ValueError()".toList⟩]
        "ValueError".toList [] =
      [[], "======= ERROR INFO ================".toList,
       "File \"t.pyp\", line 1".toList,
       "  % import helper".toList,
       "ValueError: ".toList,
       "===================================".toList] := by decide

/-- C5 counterexample: a syntax failure at generated line G = 5 with
LineMap[5] = 1 is reported citing original line 1 and its text, but the
"DETAILED SYNTAX ERROR" section printed right below it is the host's
rendering of the SyntaxError, which cites generated line 5 — the
diagnostic does cite G. -/
theorem claim_C5_counterexample :
    syntax_error_report "t.pyp".toList [(5, 1)] [("hello".toList, 1)] 5
        "invalid syntax".toList "/tmp/gen.py".toList "bad line".toList
        "invalid syntax".toList =
      [[], "======= SYNTAX ERROR =============".toList,
       "File \"t.pyp\", line 1".toList,
       "  hello".toList,
       "SyntaxError: invalid syntax".toList, [],
       "DETAILED SYNTAX ERROR:".toList,
       ("  File \"/tmp/gen.py\", line 5\n    bad line\n" ++
        "SyntaxError: invalid syntax\n").toList,
       "===================================".toList] ∧
    ("\", line 5".toList <:+:
      ("  File \"/tmp/gen.py\", line 5\n    bad line\n" ++
       "SyntaxError: invalid syntax\n").toList) ∧
    (5 : Nat) ≠ 1 := by decide

/-- C5 amended: for a runtime failure at a mapped generated line, the
report cites original line S with its literal text and formats no other
line number; for a syntax failure at a mapped generated line, the report
cites original line S with its literal text but additionally prints the
host's detailed syntax-error text, which cites the generated line; for a
failing generated line with no LineMap entry, both branches state that
the source line could not be found (the runtime branch additionally
echoing the failing generated frame) rather than attributing the failure
to any original line. -/
theorem claim_C5_amended :
    (∀ (fn : Str) (map : List (Nat × Nat)) (tl : List (Str × Nat)) (S : Nat)
        (tb : List Frame) (fr : Frame) (exc_name exc_str : Str),
      tb.getLast? = some fr → mapLookup map fr.lineno = some S →
      runtime_error_report false fn map tl tb exc_name exc_str =
        [[], "======= ERROR INFO ================".toList,
         "File \"".toList ++ fn ++ "\", line ".toList ++ natStr S,
         "  ".toList ++ ((tl.get? (S - 1)).map Prod.fst).getD [],
         exc_name ++ ": ".toList ++ exc_str,
         "===================================".toList]) ∧
    (∀ (fn : Str) (map : List (Nat × Nat)) (tl : List (Str × Nat)) (G S : Nat)
        (exc_str pyf stext smsg : Str),
      mapLookup map G = some S →
      syntax_error_report fn map tl G exc_str pyf stext smsg =
        [[], "======= SYNTAX ERROR =============".toList,
         "File \"".toList ++ fn ++ "\", line ".toList ++ natStr S,
         "  ".toList ++ ((tl.get? (S - 1)).map Prod.fst).getD [],
         "SyntaxError: ".toList ++ exc_str, [],
         "DETAILED SYNTAX ERROR:".toList,
         strJoin (format_syntax_exception_only pyf G stext smsg),
         "===================================".toList] ∧
      ("\", line ".toList ++ natStr G) <:+:
        strJoin (format_syntax_exception_only pyf G stext smsg)) ∧
    (∀ (fn : Str) (map : List (Nat × Nat)) (tl : List (Str × Nat)) (G : Nat)
        (exc_str pyf stext smsg : Str),
      mapLookup map G = none →
      "Sorry, could not find pyp source line".toList ∈
        syntax_error_report fn map tl G exc_str pyf stext smsg) ∧
    (∀ (fn : Str) (map : List (Nat × Nat)) (tl : List (Str × Nat))
        (tb : List Frame) (fr : Frame) (exc_name exc_str : Str),
      tb.getLast? = some fr → mapLookup map fr.lineno = none →
      ("Sorry, could not find pyp source line".toList ∈
        runtime_error_report false fn map tl tb exc_name exc_str) ∧
      format_list_entry fr ∈
        runtime_error_report false fn map tl tb exc_name exc_str) := by
  refine ⟨?_, ?_, ?_, ?_⟩
  · intro fn map tl S tb fr exc_name exc_str hlast hmap
    unfold runtime_error_report
    simp only [hlast, get_pyp_errorline, hmap]
    simp
  · intro fn map tl G S exc_str pyf stext smsg hmap
    constructor
    · unfold syntax_error_report
      simp only [get_pyp_errorline, hmap]
      simp
    · refine ⟨"  File \"".toList ++ pyf,
        '\n' :: ("    ".toList ++ stext ++ '\n' ::
          ("SyntaxError: ".toList ++ smsg ++ ['\n'])), ?_⟩
      simp [strJoin, format_syntax_exception_only]
  · intro fn map tl G exc_str pyf stext smsg hmap
    unfold syntax_error_report
    simp only [get_pyp_errorline, hmap]
    simp
  · intro fn map tl tb fr exc_name exc_str hlast hmap
    unfold runtime_error_report
    simp only [hlast, get_pyp_errorline, hmap]
    constructor <;> simp [strJoin]

/-- C5 witness. -/
theorem claim_C5_witness :
    runtime_error_report false "t.pyp".toList [(5, 1)] [("hello".toList, 1)]
        [⟨"/tmp/gen.py".toList, 5, "<module>".toList, "x = y".toList⟩]
        "NameError".toList "name 'y' is not defined".toList =
      [[], "======= ERROR INFO ================".toList,
       "File \"".toList ++ "t.pyp".toList ++ "\", line ".toList ++ natStr 1,
       "  ".toList ++ (([("hello".toList, 1)].get? (1 - 1)).map Prod.fst).getD [],
       "NameError".toList ++ ": ".toList ++ "name 'y' is not defined".toList,
       "===================================".toList] :=
  claim_C5_amended.1 "t.pyp".toList [(5, 1)] [("hello".toList, 1)] 1
    [⟨"/tmp/gen.py".toList, 5, "<module>".toList, "x = y".toList⟩]
    ⟨"/tmp/gen.py".toList, 5, "<module>".toList, "x = y".toList⟩
    "NameError".toList "name 'y' is not defined".toList (by decide) (by decide)
